import Mathlib

/-!
Shallow embedding of the Backend.AI CLI command handlers
(`src/ai/backend/client/cli/admin/groups.py`,
`src/ai/backend/client/cli/admin/sessions.py`,
`src/ai/backend/client/cli/manager.py`).

Each CLI handler is modelled as a pure function from its arguments and the
responses supplied by the external collaborator (`Session.Group`,
`Session.Manager`, `Session.Admin`) to an `Outcome`: the ordered list of
printed lines, the ordered list of network calls made, and the process exit
code (`sys.exit(1)` gives 1, a normal return gives 0).
-/

/-- A JSON-ish value appearing in collaborator responses. -/
inductive Value where
  | vnull : Value
  | vstr : String → Value
  | vnat : Nat → Value
  | vbool : Bool → Value
  deriving DecidableEq, Repr

/-- A response mapping: ordered key/value pairs (Python dicts keep insertion
order, which the CLI relies on when rendering `item.values()`). -/
abbrev Row := List (String × Value)

/-- Keys of a mapping, in order. -/
def rowKeys (r : Row) : List String := r.map Prod.fst

/-- Values of a mapping, in order (Python `dict.values()`). -/
def rowValues (r : Row) : List Value := r.map Prod.snd

/-- First binding of a key, if any (Python `d[k]` on a present key). -/
def rowGet : Row → String → Option Value
  | [], _ => none
  | (k', v') :: rest, k => if k' = k then some v' else rowGet rest k

/-- Python `d[k] = v`: overwrite the existing binding in place, or append. -/
def rowSet : Row → String → Value → Row
  | [], k, v => [(k, v)]
  | (k', v') :: rest, k, v =>
      if k' = k then (k, v) :: rest else (k', v') :: rowSet rest k v

/-- String content of a value (used where the Python code interpolates a
response field it knows to be a string). -/
def valStr : Value → String
  | Value.vstr s => s
  | _ => ""

/-- The result of one collaborator method call: a normal return value or a
raised exception (carrying its rendered message). -/
inductive ApiResult (α : Type) where
  | success : α → ApiResult α
  | failure : String → ApiResult α
  deriving Repr

/-- The observable outcome of one CLI command invocation. -/
structure Outcome where
  /-- Lines printed (stdout and stderr together, in order). -/
  printed : List String
  /-- Names of collaborator (network) calls performed, in order. -/
  calls : List String
  /-- Process exit code: `sys.exit(1)` yields 1, a normal return yields 0. -/
  exitCode : Nat
  deriving DecidableEq, Repr

/-- `msg` occurs verbatim inside the string `line`. -/
def containsVerbatim (line msg : String) : Prop :=
  ∃ pre post, line = pre ++ msg ++ post

/-- `print_error(e)` rendering (pretty.print_error). -/
def errorLine (e : String) : String := "Error: " ++ e

/- ## groups.py -/

/-- The static field list of `group`/`groups` in groups.py. -/
def group_fields : List (String × String) :=
  [("ID", "id"), ("Name", "name"), ("Description", "description"),
   ("Active?", "is_active"), ("Created At", "created_at"),
   ("Domain Name", "domain_name")]

/-- `admin group GID` (groups.py `group`): `Group.detail` returns either a
mapping or `None`. -/
def group_show (resp : ApiResult (Option Row)) : Outcome :=
  match resp with
  | ApiResult.failure e => ⟨[errorLine e], ["Group.detail"], 1⟩
  | ApiResult.success none =>
      ⟨["There is no such group."], ["Group.detail"], 1⟩
  | ApiResult.success (some r) =>
      ⟨["<table Field/Value " ++ toString (group_fields.filter
          (fun f => (rowKeys r).contains f.2)).length ++ " rows>"],
       ["Group.detail"], 0⟩

/-- The header/body table printed by `groups` list. -/
structure Table where
  headers : List String
  dataRows : List (List Value)
  deriving DecidableEq, Repr

/-- groups.py lines 79-84: filter the static fields against the keys present
in the FIRST result row to obtain headers; each data row is the row's own
`item.values()`. Returns `none` for an empty result (the command prints
"There is no group." and returns instead of tabulating). -/
def groups_list_table : List Row → Option Table
  | [] => none
  | first :: rest =>
      some ⟨((group_fields.filter (fun f => (rowKeys first).contains f.2)).map
               Prod.fst),
            ((first :: rest).map rowValues)⟩

/-- `admin groups` group callback (groups.py `groups`): with a subcommand it
returns immediately; otherwise a missing domain name is a usage error
(exit 1) raised before any network call; otherwise `Group.list` runs. -/
def groups_callback (invoked_subcommand : Option String)
    (domain_name : Option String) (listResp : ApiResult (List Row)) : Outcome :=
  match invoked_subcommand with
  | some _ => ⟨[], [], 0⟩
  | none =>
    match domain_name with
    | none =>
        ⟨["Domain name should be given with \x22-d\x22 option. " ++
          "If you want to see help for groups command, append \x22-h\x22 option."],
         [], 1⟩
    | some _ =>
      match listResp with
      | ApiResult.failure e => ⟨[errorLine e], ["Group.list"], 1⟩
      | ApiResult.success rows =>
        match groups_list_table rows with
        | none => ⟨["There is no group."], ["Group.list"], 0⟩
        | some t =>
            ⟨["<table " ++ toString t.headers.length ++ " cols x " ++
              toString t.dataRows.length ++ " rows>"], ["Group.list"], 0⟩

/-- The `{ok, msg, ...}` envelope returned by Group mutations; `group` is the
extra payload `Group.create` returns on success. -/
structure OkResp where
  ok : Bool
  msg : String
  group : Row
  deriving Repr

/-- `admin groups add` (groups.py `add`). -/
def groups_add (data : ApiResult OkResp) : Outcome :=
  match data with
  | ApiResult.failure e => ⟨[errorLine e], ["Group.create"], 1⟩
  | ApiResult.success d =>
    if !d.ok then
      ⟨["Group creation has failed: " ++ d.msg], ["Group.create"], 1⟩
    else
      ⟨["Group name " ++ valStr ((rowGet d.group "name").getD Value.vnull) ++
        " is created in domain " ++
        valStr ((rowGet d.group "domain_name").getD Value.vnull) ++ "."],
       ["Group.create"], 0⟩

/-- `admin groups update` (groups.py `update`); `name` is the `-n` option
(Python prints `str(None)` as "None" when it is unset). -/
def groups_update (name : Option String) (data : ApiResult OkResp) : Outcome :=
  match data with
  | ApiResult.failure e => ⟨[errorLine e], ["Group.update"], 1⟩
  | ApiResult.success d =>
    if !d.ok then
      ⟨["Group update has failed: " ++ d.msg], ["Group.update"], 1⟩
    else
      ⟨["Group " ++ (name.getD "None") ++ " is updated."], ["Group.update"], 0⟩

/-- `admin groups delete` (groups.py `delete`). -/
def groups_delete (gid : String) (data : ApiResult OkResp) : Outcome :=
  match data with
  | ApiResult.failure e => ⟨[errorLine e], ["Group.delete"], 1⟩
  | ApiResult.success d =>
    if !d.ok then
      ⟨["Group deletion has failed: " ++ d.msg], ["Group.delete"], 1⟩
    else
      ⟨["Group is deleted: " ++ gid ++ "."], ["Group.delete"], 0⟩

/-- `admin groups add-users` (groups.py `add_users`). -/
def groups_add_users (data : ApiResult OkResp) : Outcome :=
  match data with
  | ApiResult.failure e => ⟨[errorLine e], ["Group.add_users"], 1⟩
  | ApiResult.success d =>
    if !d.ok then
      ⟨["Error on adding users to group: " ++ d.msg], ["Group.add_users"], 1⟩
    else
      ⟨["Users are added to the group"], ["Group.add_users"], 0⟩

/-- `admin groups remove-users` (groups.py `remove_users`). -/
def groups_remove_users (data : ApiResult OkResp) : Outcome :=
  match data with
  | ApiResult.failure e => ⟨[errorLine e], ["Group.remove_users"], 1⟩
  | ApiResult.success d =>
    if !d.ok then
      ⟨["Error on removing users to group: " ++ d.msg], ["Group.remove_users"], 1⟩
    else
      ⟨["Users are removed from the group"], ["Group.remove_users"], 0⟩

/- ## sessions.py -/

/-- The static field list of `admin sessions` (sessions.py lines 15-27). -/
def sessions_fields : List (String × String) :=
  [("Session ID", "sess_id"), ("Lang/runtime", "lang"), ("Tag", "tag"),
   ("Created At", "created_at"), ("Terminated At", "terminated_at"),
   ("Status", "status"), ("CPU Cores", "cpu_slot"), ("CPU Used (ns)", "cpu_used"),
   ("Total Memory (MiB)", "mem_slot"), ("Used Memory (MiB)", "mem_cur_bytes"),
   ("GPU Cores", "gpu_slot")]

/-- The `--status` option's declared default (sessions.py line 56). -/
def sessions_status_default : String := "RUNNING"

/-- sessions.py lines 37-40: the GraphQL variables mapping; `status` is the
given status unless it is the special value "ALL", which maps to null. -/
def sessions_query_vars (status : String) (access_key : Option String) : Row :=
  [("status", if status ≠ "ALL" then Value.vstr status else Value.vnull),
   ("ak", match access_key with
          | some ak => Value.vstr ak
          | none => Value.vnull)]

/-- Round half to even (the tie-breaking CPython applies in `round`). -/
def roundHalfEven (x : ℚ) : ℤ :=
  if Int.fract x = 1 / 2 then (if ⌊x⌋ % 2 = 0 then ⌊x⌋ else ⌊x⌋ + 1)
  else round x

/-- Python `round(x, 1)`: round to the nearest multiple of 1/10, ties to
even (exact at the rational level; the byte counts divided by `2 ** 20` are
exactly representable doubles). -/
def pyRound1 (x : ℚ) : ℚ := (roundHalfEven (x * 10) : ℚ) / 10

/-- sessions.py line 51: `round(item['mem_cur_bytes'] / 2 ** 20, 1)`. -/
def sessions_list_mem_mib (x : ℚ) : ℚ := pyRound1 (x / 2 ^ 20)

/-- sessions.py line 112: `round(value / 2 ** 20, 1)`, applied when the field
is `mem_cur_bytes` or `mem_max_bytes` in `session` show. -/
def session_show_mem_mib (x : ℚ) : ℚ := pyRound1 (x / 2 ^ 20)

/-- The static field list of `admin session` show (sessions.py lines 71-94). -/
def session_fields : List (String × String) :=
  [("Session ID", "sess_id"), ("Role", "role"), ("Lang/runtime", "lang"),
   ("Tag", "tag"), ("Created At", "created_at"), ("Terminated At", "terminated_at"),
   ("Agent", "agent"), ("Status", "status"), ("Status Info", "status_info"),
   ("CPU Cores", "cpu_slot"), ("CPU Used (ns)", "cpu_used"),
   ("Total Memory (MiB)", "mem_slot"), ("Used Memory (MiB)", "mem_cur_bytes"),
   ("Max Used Memory (MiB)", "mem_max_bytes"), ("GPU Cores", "gpu_slot"),
   ("Number of Queries", "num_queries"), ("Network RX Bytes", "net_rx_bytes"),
   ("Network TX Bytes", "net_tx_bytes"), ("IO Read Bytes", "io_read_bytes"),
   ("IO Write Bytes", "io_write_bytes"),
   ("IO Max Scratch Size", "io_max_scratch_size"),
   ("IO Current Scratch Size", "io_cur_scratch_size")]

/-- Python `str(...)` on a response value. -/
def pyStr : Value → String
  | Value.vnull => "None"
  | Value.vstr s => s
  | Value.vnat n => toString n
  | Value.vbool b => if b then "True" else "False"

/-- Numeric content of a value (Python arithmetic on a response number). -/
def pyNum : Value → ℚ
  | Value.vnat n => (n : ℚ)
  | _ => 0

/-- sessions.py lines 110-113: one `label: value` line per value of the
`compute_session` mapping, zipped positionally with the static field list,
converting the two memory-byte fields to MiB. -/
def session_detail_lines (cs : Row) : List String :=
  (rowValues cs).enum.map (fun p =>
    let f := session_fields.getD p.1 ("", "")
    if f.2 = "mem_cur_bytes" ∨ f.2 = "mem_max_bytes" then
      f.1 ++ ": " ++ toString (session_show_mem_mib (pyNum p.2))
    else
      f.1 ++ ": " ++ pyStr p.2)

/-- `admin session NAME` (sessions.py `session`): on success the code tests
`resp['compute_session']['sess_id'] is None` and, when null, prints an
informational message and returns (no `sys.exit`); otherwise it prints the
detail listing. An absent key would raise an uncaught `KeyError`. -/
def session_show (resp : ApiResult Row) : Outcome :=
  match resp with
  | ApiResult.failure e => ⟨[errorLine e], ["Admin.query"], 1⟩
  | ApiResult.success cs =>
    match rowGet cs "sess_id" with
    | none => ⟨["Traceback: KeyError: sess_id"], ["Admin.query"], 1⟩
    | some Value.vnull =>
        ⟨["There is no such running compute session."], ["Admin.query"], 0⟩
    | some _ =>
        ⟨("Session detail:\n---------------" :: session_detail_lines cs),
         ["Admin.query"], 0⟩

/- ## manager.py -/

/-- Observable events of a manager.py command: prints, the scoped session
opening, collaborator calls, sleeps, and local-state writes. -/
inductive Ev where
  | print : String → Ev
  | openSession : Ev
  | poll : Nat → Ev
  | sleep : Nat → Ev
  | freezeCall : Bool → Ev
  | editorOpen : Ev
  | updateAnnouncement : Bool → Option String → Ev
  | writeFile : Row → Ev
  deriving DecidableEq, Repr

/-- `Manager.status()` network call (returning an active-session count). -/
def Ev.isPoll : Ev → Bool
  | Ev.poll _ => true
  | _ => false

/-- `time.sleep` event. -/
def Ev.isSleep : Ev → Bool
  | Ev.sleep _ => true
  | _ => false

/-- Any collaborator (network) call. -/
def Ev.isNetworkCall : Ev → Bool
  | Ev.poll _ => true
  | Ev.freezeCall _ => true
  | Ev.updateAnnouncement _ _ => true
  | _ => false

/-- The trace of one manager.py command: its events in order plus the
process exit code. -/
structure TraceOutcome where
  events : List Ev
  exitCode : Nat
  deriving DecidableEq, Repr

/-- manager.py line 56 waiting message. -/
def freeze_wait_msg (n : Nat) : String :=
  "Waiting for all sessions terminated... (" ++ toString n ++ " left)"

/-- manager.py lines 51-58: the polling loop of `manager freeze --wait`,
driven by the successive `Manager.status()` responses `statuses`.  Each
iteration polls once; a zero count breaks out; a non-zero count prints the
waiting message and sleeps 3 seconds.  `none` means the loop is still
polling when the supplied response list is exhausted (the real loop is
unbounded). -/
def freeze_wait_loop : List Nat → Option (List Ev)
  | [] => none
  | n :: rest =>
      if n = 0 then some [Ev.poll n]
      else (freeze_wait_loop rest).map (fun evs =>
        Ev.poll n :: Ev.print (freeze_wait_msg n) :: Ev.sleep 3 :: evs)

/-- manager.py lines 44-47 usage message (printed to stderr). -/
def freeze_flags_msg : String :=
  "You cannot use both --wait and --force-kill options at the same time."

/-- `manager freeze` (manager.py `freeze`): with both flags set it prints a
usage message and returns before opening the session; otherwise it opens the
session, runs the waiting loop if `wait`, then calls `Manager.freeze`.
Collaborator calls are modelled as succeeding (the surrounding
`except Exception` / exit-1 wrapper is not exercised by the claims). -/
def manager_freeze (wait force_kill : Bool) (statuses : List Nat) :
    Option TraceOutcome :=
  if wait && force_kill then
    some ⟨[Ev.print freeze_flags_msg], 0⟩
  else
    (if wait then
      (freeze_wait_loop statuses).map
        (fun evs => evs ++ [Ev.print "All sessions are terminated."])
     else some []).map (fun waitEvs =>
      ⟨Ev.openSession :: waitEvs ++
        (if force_kill then [Ev.print "Killing all sessions..."] else []) ++
        [Ev.freezeCall force_kill] ++
        (if force_kill then [Ev.print "All sessions are killed."] else []) ++
        [Ev.print "Manager is successfully frozen."], 0⟩)

/-- `announcement update` (manager.py `update`): when no `-m` message is
given, `click.edit` is consulted; a `None` editor result (user aborted)
cancels with exit 1; any returned text is posted with `enabled=True`.
Collaborator calls are modelled as succeeding. -/
def announcement_update (message : Option String)
    (editorResult : Option String) : TraceOutcome :=
  match message with
  | some m =>
      ⟨[Ev.openSession, Ev.updateAnnouncement true (some m),
        Ev.print "Posted new announcement."], 0⟩
  | none =>
    match editorResult with
    | none => ⟨[Ev.openSession, Ev.editorOpen, Ev.print "Cancelled"], 1⟩
    | some s =>
        ⟨[Ev.openSession, Ev.editorOpen, Ev.updateAnnouncement true (some s),
          Ev.print "Posted new announcement."], 0⟩

/-- How reading `announcement.json` went in `announcement dismiss`:
the `open` may raise `IOError` (missing), `json.load` may raise
`JSONDecodeError` (unparseable), the payload may be a valid JSON object, or
valid JSON of a non-object shape (item assignment then raises `TypeError`,
caught by the generic handler). -/
inductive DismissFile where
  | missing : DismissFile
  | unparseable : DismissFile
  | parsedObj : Row → DismissFile
  | parsedOther : DismissFile
  deriving Repr

/-- `announcement dismiss` (manager.py `dismiss`): after an affirmative
`ask_yn`, read the state file, set `dismissed` to `True`, write it back;
`IOError`/`JSONDecodeError` print the "no announcements" failure and exit 1
before anything is written. -/
def announcement_dismiss (confirmed : Bool) (file : DismissFile) :
    TraceOutcome :=
  if !confirmed then ⟨[Ev.print "Cancelled."], 1⟩
  else
    match file with
    | DismissFile.missing => ⟨[Ev.print "No announcements seen yet."], 1⟩
    | DismissFile.unparseable => ⟨[Ev.print "No announcements seen yet."], 1⟩
    | DismissFile.parsedOther => ⟨[Ev.print (errorLine "TypeError")], 1⟩
    | DismissFile.parsedObj obj =>
        ⟨[Ev.writeFile (rowSet obj "dismissed" (Value.vbool true)),
          Ev.print "Dismissed the last shown announcement."], 0⟩

/- ## Helper lemmas -/

theorem containsVerbatim_of_append (pre msg : String) :
    containsVerbatim (pre ++ msg) msg :=
  ⟨pre, "", by simp⟩

theorem rowGet_rowSet_self (r : Row) (k : String) (v : Value) :
    rowGet (rowSet r k v) k = some v := by
  induction r with
  | nil => simp [rowSet, rowGet]
  | cons p rest ih =>
      obtain ⟨k', v'⟩ := p
      by_cases hk : k' = k
      · subst hk
        simp [rowSet, rowGet]
      · simp [rowSet, rowGet, hk, ih]

theorem rowGet_rowSet_other (r : Row) (k k2 : String) (v : Value)
    (h : k2 ≠ k) : rowGet (rowSet r k v) k2 = rowGet r k2 := by
  induction r with
  | nil => simp [rowSet, rowGet, Ne.symm h]
  | cons p rest ih =>
      obtain ⟨k', v'⟩ := p
      by_cases hk : k' = k
      · subst hk
        simp [rowSet, rowGet, Ne.symm h]
      · simp only [rowSet, if_neg hk, rowGet]
        by_cases hk2 : k' = k2
        · simp [hk2]
        · simp [hk2, ih]

/-- One loop iteration per non-zero status: running the waiting loop on a
response sequence that is non-zero until a final 0 yields, per element, a
poll, and for the non-zero elements a waiting message and a 3-second sleep,
ending at the zero poll. -/
theorem freeze_wait_loop_run (pre : List Nat) (h : ∀ n ∈ pre, n ≠ 0) :
    freeze_wait_loop (pre ++ [0]) =
      some ((pre.flatMap (fun n =>
        [Ev.poll n, Ev.print (freeze_wait_msg n), Ev.sleep 3])) ++
        [Ev.poll 0]) := by
  induction pre with
  | nil => simp [freeze_wait_loop]
  | cons n rest ih =>
      have hn : n ≠ 0 := h n (by simp)
      have hrest : ∀ m ∈ rest, m ≠ 0 := fun m hm => h m (by simp [hm])
      simp [freeze_wait_loop, hn, ih hrest]

theorem countP_poll_triple (pre : List Nat) :
    ((pre.flatMap (fun n =>
      [Ev.poll n, Ev.print (freeze_wait_msg n), Ev.sleep 3])).countP
        Ev.isPoll) = pre.length := by
  induction pre with
  | nil => rfl
  | cons n rest ih =>
      simp [List.countP_cons, Ev.isPoll, ih]

theorem countP_sleep_triple (pre : List Nat) :
    ((pre.flatMap (fun n =>
      [Ev.poll n, Ev.print (freeze_wait_msg n), Ev.sleep 3])).countP
        Ev.isSleep) = pre.length := by
  induction pre with
  | nil => rfl
  | cons n rest ih =>
      simp [List.countP_cons, Ev.isSleep, ih]

theorem abs_roundHalfEven_sub (y : ℚ) : |(roundHalfEven y : ℚ) - y| ≤ 1 / 2 := by
  unfold roundHalfEven
  by_cases hf : Int.fract y = 1 / 2
  · have hy : y - (⌊y⌋ : ℚ) = 1 / 2 := by
      have := Int.self_sub_floor y
      rw [this, hf]
    by_cases he : (⌊y⌋ : ℤ) % 2 = 0
    · rw [if_pos hf, if_pos he, abs_sub_comm]
      rw [show y - ((⌊y⌋ : ℤ) : ℚ) = 1 / 2 from hy, abs_of_pos]
      all_goals norm_num
    · rw [if_pos hf, if_neg he]
      push_cast
      rw [show ((⌊y⌋ : ℚ) + 1) - y = 1 - (y - (⌊y⌋ : ℚ)) by ring, hy, abs_of_pos] <;> norm_num
  · rw [if_neg hf, abs_sub_comm]
    exact abs_sub_round y

theorem pyRound1_close (x : ℚ) : |pyRound1 x - x| ≤ 1 / 20 := by
  have h := abs_roundHalfEven_sub (x * 10)
  have heq : pyRound1 x - x = ((roundHalfEven (x * 10) : ℚ) - x * 10) / 10 := by
    unfold pyRound1
    ring
  rw [heq, abs_div, abs_of_pos (show (0 : ℚ) < 10 by norm_num)]
  linarith

/- ## Claim theorems -/

/-- C1: for every group mutation command (groups add, update, delete,
add-users, remove-users), whenever the collaborator returns an envelope
whose `ok` field is false, the command prints a failure message containing
the server-supplied `msg` verbatim and exits with code 1. -/
theorem groups_mutations_fail_verbatim_exit1 (d : OkResp) (h : d.ok = false)
    (name : Option String) (gid : String) :
    ((groups_add (ApiResult.success d)).exitCode = 1 ∧
      ∃ line ∈ (groups_add (ApiResult.success d)).printed,
        containsVerbatim line d.msg) ∧
    ((groups_update name (ApiResult.success d)).exitCode = 1 ∧
      ∃ line ∈ (groups_update name (ApiResult.success d)).printed,
        containsVerbatim line d.msg) ∧
    ((groups_delete gid (ApiResult.success d)).exitCode = 1 ∧
      ∃ line ∈ (groups_delete gid (ApiResult.success d)).printed,
        containsVerbatim line d.msg) ∧
    ((groups_add_users (ApiResult.success d)).exitCode = 1 ∧
      ∃ line ∈ (groups_add_users (ApiResult.success d)).printed,
        containsVerbatim line d.msg) ∧
    ((groups_remove_users (ApiResult.success d)).exitCode = 1 ∧
      ∃ line ∈ (groups_remove_users (ApiResult.success d)).printed,
        containsVerbatim line d.msg) := by
  have h1 : groups_add (ApiResult.success d) =
      ⟨["Group creation has failed: " ++ d.msg], ["Group.create"], 1⟩ := by
    simp [groups_add, h]
  have h2 : groups_update name (ApiResult.success d) =
      ⟨["Group update has failed: " ++ d.msg], ["Group.update"], 1⟩ := by
    simp [groups_update, h]
  have h3 : groups_delete gid (ApiResult.success d) =
      ⟨["Group deletion has failed: " ++ d.msg], ["Group.delete"], 1⟩ := by
    simp [groups_delete, h]
  have h4 : groups_add_users (ApiResult.success d) =
      ⟨["Error on adding users to group: " ++ d.msg], ["Group.add_users"], 1⟩ := by
    simp [groups_add_users, h]
  have h5 : groups_remove_users (ApiResult.success d) =
      ⟨["Error on removing users to group: " ++ d.msg],
       ["Group.remove_users"], 1⟩ := by
    simp [groups_remove_users, h]
  rw [h1, h2, h3, h4, h5]
  exact ⟨⟨rfl, _, List.mem_singleton_self _, containsVerbatim_of_append _ _⟩,
         ⟨rfl, _, List.mem_singleton_self _, containsVerbatim_of_append _ _⟩,
         ⟨rfl, _, List.mem_singleton_self _, containsVerbatim_of_append _ _⟩,
         ⟨rfl, _, List.mem_singleton_self _, containsVerbatim_of_append _ _⟩,
         ⟨rfl, _, List.mem_singleton_self _, containsVerbatim_of_append _ _⟩⟩

/-- Witness for C1 at a concrete failing envelope. -/
theorem groups_mutations_fail_verbatim_exit1_witness :
    (groups_delete "g1" (ApiResult.success ⟨false, "boom", []⟩)).exitCode = 1 ∧
    containsVerbatim "Group deletion has failed: boom" "boom" := by
  have h := groups_mutations_fail_verbatim_exit1 ⟨false, "boom", []⟩ rfl none "g1"
  obtain ⟨-, -, ⟨hexit, line, hmem, hcv⟩, -, -⟩ := h
  simp only [groups_delete, Bool.not_false, if_true, List.mem_singleton] at hmem
  subst hmem
  exact ⟨hexit, hcv⟩

/-- The full event trace `manager freeze --wait` is expected to produce on a
status sequence of non-zero counts followed by a final 0 (spec reading):
per non-zero count a poll, a waiting message and a 3-second sleep; one final
poll returning 0; then the completion message, the single `Manager.freeze`
call and the confirmation. -/
def freeze_expected_trace (pre : List Nat) : List Ev :=
  Ev.openSession ::
    (pre.flatMap (fun n =>
      [Ev.poll n, Ev.print (freeze_wait_msg n), Ev.sleep 3])) ++
    [Ev.poll 0, Ev.print "All sessions are terminated.",
     Ev.freezeCall false, Ev.print "Manager is successfully frozen."]

/-- C2: `manager freeze --wait` (force-kill unset), on a status sequence of
non-zero active-session counts followed by a final 0, polls `Manager.status`
once per element, sleeps 3 seconds after each non-zero count, leaves the
loop only at the final 0, and only then performs the single `Manager.freeze`
call — the produced trace is exactly `freeze_expected_trace`. -/
theorem manager_freeze_wait_polls (pre : List Nat) (h : ∀ n ∈ pre, n ≠ 0) :
    manager_freeze true false (pre ++ [0]) =
      some ⟨freeze_expected_trace pre, 0⟩ ∧
    (freeze_expected_trace pre).countP Ev.isPoll = (pre ++ [0]).length ∧
    (freeze_expected_trace pre).countP Ev.isSleep = pre.length ∧
    (freeze_expected_trace pre).countP (fun e => e == Ev.freezeCall false) = 1 := by
  refine ⟨?_, ?_, ?_, ?_⟩
  · simp only [manager_freeze, Bool.and_false, if_false, if_true,
      freeze_wait_loop_run pre h, Option.map_some, freeze_expected_trace]
    simp
  · simp [freeze_expected_trace, List.countP_cons, List.countP_append,
      countP_poll_triple, Ev.isPoll]
  · simp [freeze_expected_trace, List.countP_cons, List.countP_append,
      countP_sleep_triple, Ev.isSleep]
  · simp only [freeze_expected_trace, List.countP_cons, List.countP_append]
    have hflat : (pre.flatMap (fun n =>
        [Ev.poll n, Ev.print (freeze_wait_msg n), Ev.sleep 3])).countP
          (fun e => e == Ev.freezeCall false) = 0 := by
      induction pre with
      | nil => rfl
      | cons n rest ih =>
          rw [List.flatMap_cons, List.countP_append,
            ih (fun m hm => h m (List.mem_cons_of_mem _ hm))]
          rfl
    simp [hflat]

/-- Witness for C2 at the status sequence [2, 1, 0]. -/
theorem manager_freeze_wait_polls_witness :
    manager_freeze true false [2, 1, 0] =
      some ⟨freeze_expected_trace [2, 1], 0⟩ ∧
    (freeze_expected_trace [2, 1]).countP Ev.isPoll = 3 ∧
    (freeze_expected_trace [2, 1]).countP Ev.isSleep = 2 := by
  have h := manager_freeze_wait_polls [2, 1] (by decide)
  exact ⟨h.1, h.2.1, h.2.2.1⟩

/-- C3: in `admin sessions`, the `--status` default is "RUNNING" and is sent
as the `status` query variable, while the special value "ALL" maps the
`status` variable to null. -/
theorem sessions_status_filter (ak : Option String) :
    sessions_status_default = "RUNNING" ∧
    rowGet (sessions_query_vars sessions_status_default ak) "status" =
      some (Value.vstr "RUNNING") ∧
    rowGet (sessions_query_vars "ALL" ak) "status" = some Value.vnull := by
  refine ⟨rfl, ?_, ?_⟩ <;> simp [sessions_query_vars, rowGet,
    sessions_status_default]

/-- C5: `groups` with neither a subcommand nor `--domain-name` prints the
guidance message and exits 1 without any network call; with a subcommand the
callback returns before the domain-name check, for any domain option. -/
theorem groups_callback_domain_check (resp : ApiResult (List Row))
    (dn : Option String) (sub : String) :
    groups_callback none none resp =
      ⟨["Domain name should be given with \x22-d\x22 option. " ++
        "If you want to see help for groups command, append \x22-h\x22 option."],
       [], 1⟩ ∧
    (groups_callback none none resp).calls = [] ∧
    groups_callback (some sub) dn resp = ⟨[], [], 0⟩ :=
  ⟨rfl, rfl, rfl⟩

/-- C8: `manager freeze --wait --force-kill` prints only the usage message,
makes no network call, does not open the session, and the exit code stays
0 (no `sys.exit`). -/
theorem manager_freeze_both_flags (statuses : List Nat) :
    manager_freeze true true statuses =
      some ⟨[Ev.print freeze_flags_msg], 0⟩ ∧
    (manager_freeze true true statuses).map
      (fun t => t.events.countP Ev.isNetworkCall) = some 0 ∧
    (manager_freeze true true statuses).map
      (fun t => t.events.contains Ev.openSession) = some false ∧
    (manager_freeze true true statuses).map TraceOutcome.exitCode = some 0 :=
  ⟨rfl, rfl, rfl, rfl⟩

/-- C4: the byte-to-MiB conversion of sessions list and session show is the
same function, it rounds `bytes / 2^20` to the nearest multiple of 1/10
(within 1/20), and on the concrete inputs 1048576 and 1572864 it renders
1.0 and 1.5. -/
theorem mem_mib_conversion (b : ℕ) :
    sessions_list_mem_mib (b : ℚ) = session_show_mem_mib (b : ℚ) ∧
    sessions_list_mem_mib (b : ℚ) =
      (roundHalfEven ((b : ℚ) / 2 ^ 20 * 10) : ℚ) / 10 ∧
    |sessions_list_mem_mib (b : ℚ) - (b : ℚ) / 2 ^ 20| ≤ 1 / 20 ∧
    sessions_list_mem_mib ((1048576 : ℕ) : ℚ) = 1 ∧
    session_show_mem_mib ((1048576 : ℕ) : ℚ) = 1 ∧
    sessions_list_mem_mib ((1572864 : ℕ) : ℚ) = 3 / 2 ∧
    session_show_mem_mib ((1572864 : ℕ) : ℚ) = 3 / 2 := by
  refine ⟨rfl, rfl, pyRound1_close _, ?_, ?_, ?_, ?_⟩ <;>
    norm_num [sessions_list_mem_mib, session_show_mem_mib, pyRound1,
      roundHalfEven, Int.fract, round_eq]

/-- C6 (amended): `admin session` prints the "no such running compute
session" message and returns with exit code 0 exactly when the `sess_id` of
the response is null, whereas `admin group` exits 1 on an absent group. -/
theorem session_show_null_returns (cs : Row)
    (h : rowGet cs "sess_id" = some Value.vnull) :
    session_show (ApiResult.success cs) =
      ⟨["There is no such running compute session."], ["Admin.query"], 0⟩ ∧
    group_show (ApiResult.success none) =
      ⟨["There is no such group."], ["Group.detail"], 1⟩ := by
  constructor
  · simp [session_show, h]
  · rfl

/-- Witness for C6 at a concrete null-`sess_id` response. -/
theorem session_show_null_returns_witness :
    session_show (ApiResult.success [("sess_id", Value.vnull)]) =
      ⟨["There is no such running compute session."], ["Admin.query"], 0⟩ ∧
    group_show (ApiResult.success none) =
      ⟨["There is no such group."], ["Group.detail"], 1⟩ :=
  session_show_null_returns [("sess_id", Value.vnull)] rfl

/-- C6 counterexample: an EMPTY (non-null) `sess_id` does not trigger the
"no such running compute session" message — the code only tests `is None`,
so the empty string falls through to the detail listing. -/
theorem session_show_empty_sess_id_cex :
    session_show (ApiResult.success [("sess_id", Value.vstr "")]) =
      ⟨["Session detail:\n---------------", "Session ID: "],
       ["Admin.query"], 0⟩ ∧
    ("There is no such running compute session." ∈
      (session_show (ApiResult.success [("sess_id", Value.vstr "")])).printed
        → False) := by
  constructor
  · rfl
  · decide

/-- C7 (amended): `announcement update` without `-m` opens the editor; a
null editor result (user aborted) prints "Cancelled" and exits 1; any
returned text, including the empty string, is posted with `enabled=true`;
a given message is posted directly without the editor. -/
theorem announcement_update_editor (m s : String) (ed : Option String) :
    announcement_update none none =
      ⟨[Ev.openSession, Ev.editorOpen, Ev.print "Cancelled"], 1⟩ ∧
    announcement_update none (some s) =
      ⟨[Ev.openSession, Ev.editorOpen, Ev.updateAnnouncement true (some s),
        Ev.print "Posted new announcement."], 0⟩ ∧
    announcement_update (some m) ed =
      ⟨[Ev.openSession, Ev.updateAnnouncement true (some m),
        Ev.print "Posted new announcement."], 0⟩ :=
  ⟨rfl, rfl, rfl⟩

/-- C7 counterexample: an empty (non-null) editor result is NOT treated as a
cancellation — it is posted with `enabled=true` and the exit code is 0. -/
theorem announcement_update_empty_editor_cex :
    announcement_update none (some "") =
      ⟨[Ev.openSession, Ev.editorOpen, Ev.updateAnnouncement true (some ""),
        Ev.print "Posted new announcement."], 0⟩ ∧
    ((announcement_update none (some "")).exitCode = 1 → False) :=
  ⟨rfl, by decide⟩

/-- C9: `announcement dismiss`, after an affirmative confirmation: a missing
or unparseable state file prints the "No announcements seen yet." failure
and exits 1 without writing; a valid JSON object is written back with the
`dismissed` key set to true (added or overwritten, all other keys kept)
and success is reported with exit 0. -/
theorem announcement_dismiss_state (obj : Row) :
    announcement_dismiss true DismissFile.missing =
      ⟨[Ev.print "No announcements seen yet."], 1⟩ ∧
    announcement_dismiss true DismissFile.unparseable =
      ⟨[Ev.print "No announcements seen yet."], 1⟩ ∧
    announcement_dismiss true (DismissFile.parsedObj obj) =
      ⟨[Ev.writeFile (rowSet obj "dismissed" (Value.vbool true)),
        Ev.print "Dismissed the last shown announcement."], 0⟩ ∧
    rowGet (rowSet obj "dismissed" (Value.vbool true)) "dismissed" =
      some (Value.vbool true) ∧
    (∀ k, k ≠ "dismissed" →
      rowGet (rowSet obj "dismissed" (Value.vbool true)) k = rowGet obj k) :=
  ⟨rfl, rfl, rfl, rowGet_rowSet_self obj _ _,
   fun k hk => rowGet_rowSet_other obj _ k _ hk⟩

/-- Witness for C9 at a concrete one-key state object. -/
theorem announcement_dismiss_state_witness :
    announcement_dismiss true (DismissFile.parsedObj [("msg", Value.vstr "hi")]) =
      ⟨[Ev.writeFile [("msg", Value.vstr "hi"), ("dismissed", Value.vbool true)],
        Ev.print "Dismissed the last shown announcement."], 0⟩ ∧
    rowGet [("msg", Value.vstr "hi"), ("dismissed", Value.vbool true)] "msg" =
      rowGet [("msg", Value.vstr "hi")] "msg" := by
  have h := announcement_dismiss_state [("msg", Value.vstr "hi")]
  exact ⟨h.2.2.1, h.2.2.2.2 "msg" (by decide)⟩

/-- C10 (amended): the headers of `groups` list are exactly the labels whose
keys occur in the first result row and each data row is that row's values in
its own order; a row's data-column count differs from the header count
exactly when the row's number of entries differs from the number of
requested fields present in the first row. -/
theorem groups_list_table_shape (first : Row) (rest : List Row) :
    groups_list_table (first :: rest) =
      some ⟨(group_fields.filter
               (fun f => (rowKeys first).contains f.2)).map Prod.fst,
            (first :: rest).map rowValues⟩ ∧
    (∀ r ∈ first :: rest,
      ((rowValues r).length ≠
          ((group_fields.filter
              (fun f => (rowKeys first).contains f.2)).map Prod.fst).length
        ↔ r.length ≠ (group_fields.filter
              (fun f => (rowKeys first).contains f.2)).length)) := by
  refine ⟨rfl, fun r _ => ?_⟩
  simp [rowValues]

/-- Witness for C10's amended shape statement at concrete rows. -/
theorem groups_list_table_shape_witness :
    groups_list_table
        [[("id", Value.vstr "g1"), ("name", Value.vstr "alpha")],
         [("id", Value.vstr "g2"), ("foo", Value.vstr "x")]] =
      some ⟨["ID", "Name"],
            [[Value.vstr "g1", Value.vstr "alpha"],
             [Value.vstr "g2", Value.vstr "x"]]⟩ ∧
    ((rowValues [("id", Value.vstr "g2"), ("foo", Value.vstr "x")]).length ≠
        (["ID", "Name"] : List String).length ↔
      ([("id", Value.vstr "g2"), ("foo", Value.vstr "x")] : Row).length ≠ 2) := by
  have h := groups_list_table_shape
    [("id", Value.vstr "g1"), ("name", Value.vstr "alpha")]
    [[("id", Value.vstr "g2"), ("foo", Value.vstr "x")]]
  exact ⟨h.1, h.2 [("id", Value.vstr "g2"), ("foo", Value.vstr "x")] (by decide)⟩

/-- C10 counterexample: in this two-row result the second row holds the key
"foo", which is outside the filtered field list, yet its number of data
columns (2) equals the number of headers (2) — the claimed consequence
fails. -/
theorem groups_list_extra_key_cex :
    ("foo" ∈ rowKeys [("id", Value.vstr "g2"), ("foo", Value.vstr "x")]) ∧
    ("foo" ∈ (group_fields.filter
        (fun f => (rowKeys [("id", Value.vstr "g1"),
          ("name", Value.vstr "alpha")]).contains f.2)).map Prod.snd
      → False) ∧
    groups_list_table
        [[("id", Value.vstr "g1"), ("name", Value.vstr "alpha")],
         [("id", Value.vstr "g2"), ("foo", Value.vstr "x")]] =
      some ⟨["ID", "Name"],
            [[Value.vstr "g1", Value.vstr "alpha"],
             [Value.vstr "g2", Value.vstr "x"]]⟩ ∧
    (rowValues [("id", Value.vstr "g2"), ("foo", Value.vstr "x")]).length =
      (["ID", "Name"] : List String).length := by
  refine ⟨by decide, by decide, rfl, rfl⟩
